import Mathlib

/-
Verification development for the AI-VIRTUAL-INTERVIEWER-SYSTEM repository
(src/main.py, a single-file Streamlit application).

The embedding models the session state machine and the three helper
pipelines of main.py.  External collaborators (the Gemini text-generation
model, the ffmpeg converter process, and the Google speech-recognition
backend) are modelled as oracle parameters describing the outcome of the
single blocking call the code makes to each of them; everything the
repository itself computes (truthiness checks, state updates, phase
derivation, fallbacks, file cleanup) is translated directly from the
source.  Python exceptions raised by a collaborator are modelled as
explicit outcome constructors; the filesystem visible to the transcription
pipeline is modelled as the list of existing file paths.
-/

/-- A question record as produced by generate_questions: a JSON object with
id and text fields (src/main.py lines 50-51, 54). -/
structure Question where
  id : String
  text : String
deriving DecidableEq

/-- Oracle for the body of the try block of generate_questions
(src/main.py lines 55-58): the call model.generate_content followed by the
strip/lstrip/rstrip cleanup and json.loads.  Since the collaborator response
text is external input and the cleanup/parse is deterministic, the composite
is determined by the oracle: raises covers an exception anywhere in the try
block (collaborator failure or unparsable output), parsed qs is a successful
json.loads of the cleaned text yielding the array qs.  Any array is
realizable: for example the response text
[ object id q1 text A, object id q2 text B, object id q3 text C ]
in JSON syntax parses to a three-element list. -/
inductive GenOutcome where
  | raises (msg : String)
  | parsed (qs : List Question)
deriving DecidableEq

/-- Oracle for the model.generate_content call inside analyze_with_gemini
(src/main.py lines 118-120): either returns response text or raises. -/
inductive EvalOutcome where
  | raises (msg : String)
  | returns (text : String)
deriving DecidableEq

/-- Oracle for the ffmpeg subprocess.run call in transcribe_audio
(src/main.py lines 75-81): ok means the converter exited 0 and wrote the
output file; fails means subprocess.run raised (non-zero exit via check=True,
or spawn failure), in which case the output file may or may not have been
created (ffmpeg -y may create/truncate it before failing). -/
inductive ConvOutcome where
  | ok
  | fails (created : Bool)
deriving DecidableEq

/-- Oracle for the second try block of transcribe_audio (src/main.py lines
89-92): opening the audio file, recording and recognize_google together
either yield text, raise sr.UnknownValueError, or raise some other
exception with a message. -/
inductive RecogOutcome where
  | ok (text : String)
  | unknownValue
  | raises (msg : String)
deriving DecidableEq

/-- The one-element fallback question list of generate_questions
(src/main.py lines 54 and 61). -/
def fallbackQuestions : List Question :=
  [{ id := "q1", text := "Tell me about yourself." }]

/-- generate_questions (src/main.py lines 47-61).  role and difficulty are
interpolated into the prompt only, so they do not influence the result
beyond what the oracle already accounts for.  If GEMINI_READY is false the
fallback is returned before any collaborator call; otherwise an exception
in the try block yields the fallback and a successful parse is returned
as-is, with no validation of its length or contents. -/
def generate_questions (geminiReady : Bool) (gen : GenOutcome)
    (role difficulty : String) : List Question :=
  if geminiReady then
    match gen with
    | GenOutcome.raises _ => fallbackQuestions
    | GenOutcome.parsed qs => qs
  else fallbackQuestions

/-- analyze_with_gemini (src/main.py lines 104-122): returns the response
text on success and the formatted string on any exception. -/
def analyze_with_gemini (ev : EvalOutcome)
    (answer_text question_text : String) : String :=
  match ev with
  | EvalOutcome.returns t => t
  | EvalOutcome.raises e => "Error getting feedback: " ++ e

/-- transcribe_audio (src/main.py lines 63-102), with the filesystem made
explicit as the list fs of existing paths.  Returns the Python return value
(None is modelled as none; both recognized text and the formatted Error
string are some, exactly as both are str in Python) together with the
filesystem after the call.  The converted-file path tmp_wav is the input
path with suffix _converted.wav (line 71); on converter success it exists
and is used, on converter failure the original path is used (lines 83-87).
The cleanup of lines 94-96 runs only on the recognized-text path; the
early returns for sr.UnknownValueError and for any other exception
(lines 99-102) skip it. -/
def transcribe_audio (audio_file_path : String) (conv : ConvOutcome)
    (recog : RecogOutcome) (fs : List String) : Option String × List String :=
  let tmp_wav := audio_file_path ++ "_converted.wav"
  let fs1 :=
    match conv with
    | ConvOutcome.ok => fs.insert tmp_wav
    | ConvOutcome.fails created => if created then fs.insert tmp_wav else fs
  match recog with
  | RecogOutcome.ok text =>
      if fs1.contains tmp_wav && !(tmp_wav == audio_file_path) then
        (some text, fs1.erase tmp_wav)
      else
        (some text, fs1)
  | RecogOutcome.unknownValue => (none, fs1)
  | RecogOutcome.raises e => (some ("Error: " ++ e), fs1)

/-- Python truthiness of an optional string: None and the empty string are
falsy, every other string is truthy.  Used for
st session state feedback on line 162 and for transcript on line 194. -/
def truthyOpt : Option String → Bool
  | none => false
  | some s => !(s == "")

/-- Python substring membership, pat in s, as used on line 173 for the
response-mode check. -/
def pyIn (pat s : String) : Bool :=
  s.toList.tails.any (fun t => pat.toList.isPrefixOf t)

/-- Python str.strip with no argument, as used on line 209: remove
whitespace from both ends of the string. -/
def pyStrip (s : String) : String :=
  ⟨((s.data.dropWhile Char.isWhitespace).reverse.dropWhile Char.isWhitespace).reverse⟩

/-- The Streamlit session state of Stage 4 (src/main.py lines 33-44):
questions, current_q, feedback, setup_done, mode, name. -/
structure SessionState where
  questions : List Question
  current_q : Nat
  feedback : Option String
  setup_done : Bool
  mode : String
  name : String
deriving DecidableEq

/-- The initial session state established by Stage 4 on a fresh session
(and re-established after st session state clear on line 220). -/
def initState : SessionState :=
  { questions := []
    current_q := 0
    feedback := none
    setup_done := false
    mode := "Text ✎"
    name := "" }

/-- The four phases of the spec data model.  main.py does not store a phase
field; the phase is derived from the state by the rendering dispatch. -/
inductive Phase where
  | SETUP
  | ASKING
  | REVIEWING
  | DONE
deriving DecidableEq

/-- The phase the rendering logic of Stages 6-7 derives from the state:
not setup_done renders the setup page (line 125); otherwise current_q
within range renders the feedback page when feedback is truthy (line 162)
and the answer-input page when it is not; current_q past the end renders
the completion page (lines 216-221). -/
def phase (s : SessionState) : Phase :=
  if s.setup_done then
    if s.current_q < s.questions.length then
      if truthyOpt s.feedback then Phase.REVIEWING else Phase.ASKING
    else Phase.DONE
  else Phase.SETUP

/-- The Start Interview handler together with the name-widget sync of
line 130 (which runs during the same render pass, before the button check).
Lines 139-149: empty name shows an error and changes nothing else; a
missing Gemini key shows an error and changes nothing else; otherwise
questions are generated, mode is recorded and setup_done is set.  field is
read into a local on line 131 and never used. -/
def startInterview (geminiReady : Bool) (gen : GenOutcome)
    (name field role difficulty mode : String) (s : SessionState) :
    SessionState :=
  let s1 := { s with name := name }
  if name == "" then s1
  else if geminiReady then
    { s1 with
      questions := generate_questions geminiReady gen role difficulty
      mode := mode
      setup_done := true }
  else s1

/-- The text-mode Submit handler (src/main.py lines 207-214): a
whitespace-only answer shows a warning and changes nothing; otherwise
feedback is set to the evaluator result for the current question. -/
def submitTextAnswer (ev : EvalOutcome) (answer : String)
    (s : SessionState) : SessionState :=
  if pyStrip answer == "" then s
  else
    match s.questions[s.current_q]? with
    | some q => { s with feedback := some (analyze_with_gemini ev answer q.text) }
    | none => s

/-- The voice-mode handler for a finished recording (src/main.py lines
180-203): the raw audio is saved to tmp_path, transcribed, tmp_path is
removed, and then the truthiness check of line 194 forwards any truthy
transcript (a nonempty string, whether recognized text or the Error
string) to the evaluator; None and the empty string fall to the warning
branch. -/
def audioReadyHandler (conv : ConvOutcome) (recog : RecogOutcome)
    (ev : EvalOutcome) (tmp_path : String) (s : SessionState)
    (fs : List String) : SessionState × List String :=
  let r := transcribe_audio tmp_path conv recog fs
  let fs2 := r.2.erase tmp_path
  match r.1, s.questions[s.current_q]? with
  | some t, some q =>
      if t == "" then (s, fs2)
      else ({ s with feedback := some (analyze_with_gemini ev t q.text) }, fs2)
  | _, _ => (s, fs2)

/-- The Next Question handler (src/main.py lines 167-170): clears feedback
and increments current_q. -/
def nextQuestion (s : SessionState) : SessionState :=
  { s with feedback := none, current_q := s.current_q + 1 }

/-- The Start Over handler (src/main.py lines 219-221): clears the session
state, after which Stage 4 re-initializes every key to its initial value. -/
def startOver (_s : SessionState) : SessionState := initState

/-- The UI command surface: each Streamlit event of Stages 6-7 as a
discrete command, carrying the widget values and collaborator oracles the
corresponding handler consumes. -/
inductive Cmd where
  | start (geminiReady : Bool) (gen : GenOutcome)
      (name field role difficulty mode : String)
  | submitText (ev : EvalOutcome) (answer : String)
  | audioReady (conv : ConvOutcome) (recog : RecogOutcome)
      (ev : EvalOutcome) (tmp_path : String)
  | advance
  | reset
deriving DecidableEq

/-- One command dispatched against the state.  The guard of each branch is
the rendering condition under which main.py displays the corresponding
widget: the start button only on the setup page, the submit button only in
text mode while a question is being asked, the audio widget only in voice
mode while a question is being asked, Next Question only while feedback is
shown, Start Over only on the completion page.  A command whose widget is
not rendered cannot fire and is a no-op. -/
def step (c : Cmd) (s : SessionState) : SessionState :=
  match c with
  | Cmd.start g gen name field role difficulty mode =>
      if s.setup_done then s
      else startInterview g gen name field role difficulty mode s
  | Cmd.submitText ev answer =>
      if phase s = Phase.ASKING ∧ pyIn "Voice" s.mode = false then
        submitTextAnswer ev answer s
      else s
  | Cmd.audioReady conv recog ev tmp_path =>
      if phase s = Phase.ASKING ∧ pyIn "Voice" s.mode = true then
        (audioReadyHandler conv recog ev tmp_path s []).1
      else s
  | Cmd.advance =>
      if phase s = Phase.REVIEWING then nextQuestion s else s
  | Cmd.reset =>
      if phase s = Phase.DONE then startOver s else s

/-- Replace the field widget value carried by a start command; other
commands carry no field value. -/
def setField (c : Cmd) (f : String) : Cmd :=
  match c with
  | Cmd.start g gen name _field role difficulty mode =>
      Cmd.start g gen name f role difficulty mode
  | c => c

/-- Run a sequence of commands from a state. -/
def run (cs : List Cmd) (s : SessionState) : SessionState :=
  cs.foldl (fun s c => step c s) s

/-- The state invariant exactly as the spec data model states it:
currentIndex valid while asking or reviewing; pendingFeedback truthy iff
reviewing; phase DONE iff currentIndex equals the question count. -/
def specInvariant (s : SessionState) : Prop :=
  ((phase s = Phase.ASKING ∨ phase s = Phase.REVIEWING) →
      s.current_q < s.questions.length)
  ∧ (truthyOpt s.feedback = true ↔ phase s = Phase.REVIEWING)
  ∧ (phase s = Phase.DONE ↔ s.current_q = s.questions.length)

/-- The invariant the code actually maintains: the DONE clause is scoped to
states past setup (in SETUP the question list is empty while currentIndex
is 0, so the unscoped clause fails there), and in SETUP currentIndex is 0. -/
def scopedInvariant (s : SessionState) : Prop :=
  ((phase s = Phase.ASKING ∨ phase s = Phase.REVIEWING) →
      s.current_q < s.questions.length)
  ∧ (truthyOpt s.feedback = true ↔ phase s = Phase.REVIEWING)
  ∧ (s.setup_done = true → (phase s = Phase.DONE ↔ s.current_q = s.questions.length))
  ∧ (s.setup_done = false → s.current_q = 0)

instance (s : SessionState) : Decidable (specInvariant s) := by
  unfold specInvariant
  infer_instance

instance (s : SessionState) : Decidable (scopedInvariant s) := by
  unfold scopedInvariant
  infer_instance

/-- A completed-interview state: one question, already advanced past it. -/
def doneStateEx : SessionState :=
  { questions := fallbackQuestions
    current_q := 1
    feedback := none
    setup_done := true
    mode := "Text ✎"
    name := "Alex" }

/-- A voice-mode state in the middle of asking the first question. -/
def voiceAskingEx : SessionState :=
  { questions := fallbackQuestions
    current_q := 0
    feedback := none
    setup_done := true
    mode := "Voice 🎙️ (Real-time)"
    name := "Alex" }

/-- A text-mode state in the middle of asking the first question. -/
def textAskingEx : SessionState :=
  { questions := fallbackQuestions
    current_q := 0
    feedback := none
    setup_done := true
    mode := "Text ✎"
    name := "Alex" }

/-- A reviewing state: feedback pending on the first of two questions. -/
def reviewingEx : SessionState :=
  { questions := [{ id := "q1", text := "Tell me about yourself." },
                  { id := "q2", text := "Why this role?" }]
    current_q := 0
    feedback := some "Good answer."
    setup_done := true
    mode := "Text ✎"
    name := "Alex" }

/-- A three-element parsed array, as json.loads returns for a collaborator
response containing three id/text objects. -/
def threeParsedQuestions : List Question :=
  [{ id := "q1", text := "A" }, { id := "q2", text := "B" },
   { id := "q3", text := "C" }]

theorem phase_setup_iff (s : SessionState) :
    phase s = Phase.SETUP ↔ s.setup_done = false := by
  unfold phase
  by_cases h : s.setup_done = true
  · by_cases h2 : s.current_q < s.questions.length
    · by_cases h3 : truthyOpt s.feedback = true <;> simp [h, h2, h3]
    · simp [h, h2]
  · simp [h]

theorem phase_asking_iff (s : SessionState) :
    phase s = Phase.ASKING ↔
      s.setup_done = true ∧ s.current_q < s.questions.length ∧
        truthyOpt s.feedback = false := by
  unfold phase
  by_cases h : s.setup_done = true
  · by_cases h2 : s.current_q < s.questions.length
    · by_cases h3 : truthyOpt s.feedback = true <;> simp [h, h2, h3]
    · simp [h, h2]
  · simp [h]

theorem phase_reviewing_iff (s : SessionState) :
    phase s = Phase.REVIEWING ↔
      s.setup_done = true ∧ s.current_q < s.questions.length ∧
        truthyOpt s.feedback = true := by
  unfold phase
  by_cases h : s.setup_done = true
  · by_cases h2 : s.current_q < s.questions.length
    · by_cases h3 : truthyOpt s.feedback = true <;> simp [h, h2, h3]
    · simp [h, h2]
  · simp [h]

theorem phase_done_iff (s : SessionState) :
    phase s = Phase.DONE ↔
      s.setup_done = true ∧ s.questions.length ≤ s.current_q := by
  unfold phase
  by_cases h : s.setup_done = true
  · by_cases h2 : s.current_q < s.questions.length
    · by_cases h3 : truthyOpt s.feedback = true <;> simp [h, h2, h3]
    · simp [h, h2]
      omega
  · simp [h]

/-- A string with a non-empty left part is non-empty. -/
theorem append_ne_empty_of_left (a b : String) (h : 0 < a.length) :
    ¬ (a ++ b = "") := by
  intro he
  have h2 : (a ++ b).length = 0 := by rw [he]; rfl
  rw [String.length_append] at h2
  omega

/-- Claim C1 counterexample: with a non-empty candidate name but the
generation collaborator unavailable, the Start Interview handler does not
transition SETUP to ASKING: the command is rejected, the phase stays
SETUP, and no question list (not even the fallback) is installed. -/
theorem C1_counterexample :
    phase (step (Cmd.start false (GenOutcome.raises "no key") "Alex"
      "Student" "Software Engineer" "Beginner" "Text ✎") initState)
      = Phase.SETUP ∧
    (step (Cmd.start false (GenOutcome.raises "no key") "Alex"
      "Student" "Software Engineer" "Beginner" "Text ✎") initState).questions
      = [] := by
  decide

/-- Claim C1 (amended): when the generation collaborator is unavailable, a
start command with a non-empty name is rejected: the phase stays SETUP and
the state is unchanged except for the name-widget sync; the single default
question is only what generate_questions itself returns when the
collaborator is unavailable, but the handler guard fires before it is ever
invoked. -/
theorem C1_start_rejected_without_gemini (gen : GenOutcome)
    (name field role difficulty mode : String) (s : SessionState)
    (hname : name ≠ "") (hsetup : s.setup_done = false) :
    phase (step (Cmd.start false gen name field role difficulty mode) s)
      = Phase.SETUP ∧
    step (Cmd.start false gen name field role difficulty mode) s
      = { s with name := name } ∧
    generate_questions false gen role difficulty = fallbackQuestions := by
  have hb : (name == "") = false := by simp [hname]
  have hstep : step (Cmd.start false gen name field role difficulty mode) s
      = { s with name := name } := by
    simp [step, hsetup, startInterview, hb]
  refine ⟨?_, hstep, rfl⟩
  rw [hstep, phase_setup_iff]
  simpa using hsetup

/-- Witness for C1 (amended) at a concrete input. -/
theorem C1_start_rejected_witness :
    ("Alex" : String) ≠ "" ∧ initState.setup_done = false ∧
    phase (step (Cmd.start false (GenOutcome.raises "no key") "Alex"
      "Student" "Software Engineer" "Beginner" "Text ✎") initState)
      = Phase.SETUP :=
  ⟨by decide, by decide,
    (C1_start_rejected_without_gemini (GenOutcome.raises "no key") "Alex"
      "Student" "Software Engineer" "Beginner" "Text ✎" initState
      (by decide) (by decide)).1⟩

/-- Claim C2 counterexample: with the collaborator available and returning
a parsable three-element array, generate_questions returns those three
records unchanged — the length is not fixed at 4 (nor validated at all). -/
theorem C2_counterexample :
    generate_questions true (GenOutcome.parsed threeParsedQuestions)
      "Software Engineer" "Beginner" = threeParsedQuestions ∧
    (generate_questions true (GenOutcome.parsed threeParsedQuestions)
      "Software Engineer" "Beginner").length ≠ 4 := by
  decide

/-- Claim C2 (amended): generate_questions returns exactly the one-element
fallback when the collaborator is unavailable or its output raises during
generation or parsing, and otherwise returns the parsed sequence as-is:
the prompt requests 4 questions but no length is enforced. -/
theorem C2_generate_contract (role difficulty : String) (gen : GenOutcome) :
    generate_questions false gen role difficulty = fallbackQuestions ∧
    (∀ m, generate_questions true (GenOutcome.raises m) role difficulty
        = fallbackQuestions) ∧
    (∀ qs, generate_questions true (GenOutcome.parsed qs) role difficulty = qs) ∧
    fallbackQuestions = [{ id := "q1", text := "Tell me about yourself." }] :=
  ⟨rfl, fun _ => rfl, fun _ => rfl, rfl⟩

/-- Claim C3, evaluated at the failing inputs: after a successful
conversion, the sr.UnknownValueError exit returns None with the converted
temp file still on disk, and a generic recognition failure likewise leaks
it; only the recognized-text exit deletes it. -/
theorem C3_temp_file_leak :
    ((transcribe_audio "a.wav" ConvOutcome.ok RecogOutcome.unknownValue
        ["a.wav"]).1 = none ∧
      (transcribe_audio "a.wav" ConvOutcome.ok RecogOutcome.unknownValue
        ["a.wav"]).2.contains "a.wav_converted.wav" = true) ∧
    ((transcribe_audio "a.wav" ConvOutcome.ok (RecogOutcome.raises "boom")
        ["a.wav"]).1 = some "Error: boom" ∧
      (transcribe_audio "a.wav" ConvOutcome.ok (RecogOutcome.raises "boom")
        ["a.wav"]).2.contains "a.wav_converted.wav" = true) ∧
    (transcribe_audio "a.wav" ConvOutcome.ok (RecogOutcome.ok "hello")
        ["a.wav"]).2.contains "a.wav_converted.wav" = false := by
  decide

/-- Claim C8: the Start Over handler returns the session to a state equal
by value to the initial SETUP state: questions empty, currentIndex 0,
pendingFeedback empty, candidate name cleared, phase SETUP. -/
theorem C8_reset_returns_initial :
    (∀ s : SessionState, startOver s = initState) ∧
    initState.questions = [] ∧ initState.current_q = 0 ∧
    initState.feedback = none ∧ initState.name = "" ∧
    phase initState = Phase.SETUP :=
  ⟨fun _ => rfl, rfl, rfl, rfl, rfl, by decide⟩

/-- Dispatching a command does not depend on the field widget value: field
is read into a local in the setup form and never used afterwards. -/
theorem step_setField_eq (c : Cmd) (f1 f2 : String) (s : SessionState) :
    step (setField c f1) s = step (setField c f2) s := by
  cases c <;> rfl

/-- Claim C9: the Candidate field value (Student vs Professional) has no
effect on behavior: the Start Interview handler result does not depend on
it, and two command sequences identical except for every field value end
in identical states (hence identical questions, transitions and
feedback). -/
theorem C9_field_noninterference (f1 f2 : String) :
    (∀ (g : Bool) (gen : GenOutcome)
        (name role difficulty mode : String) (s : SessionState),
      startInterview g gen name f1 role difficulty mode s
        = startInterview g gen name f2 role difficulty mode s) ∧
    (∀ (cs : List Cmd) (s : SessionState),
      run (cs.map (fun c => setField c f1)) s
        = run (cs.map (fun c => setField c f2)) s) := by
  constructor
  · intro g gen name role difficulty mode s
    rfl
  · intro cs
    induction cs with
    | nil => intro s; rfl
    | cons c cs ih =>
        intro s
        show run (cs.map (fun c => setField c f1)) (step (setField c f1) s)
          = run (cs.map (fun c => setField c f2)) (step (setField c f2) s)
        rw [step_setField_eq c f1 f2 s]
        exact ih _

/-- Claim C10: transcribe_audio is total over every converter and
recognition behavior: its value is the recognized text, None for
unrecognized audio, or a formatted Error string — never a propagated
exception. -/
theorem C10_transcribe_total (p : String) (conv : ConvOutcome)
    (recog : RecogOutcome) (fs : List String) :
    (∃ t, recog = RecogOutcome.ok t ∧
        (transcribe_audio p conv recog fs).1 = some t) ∨
    (recog = RecogOutcome.unknownValue ∧
        (transcribe_audio p conv recog fs).1 = none) ∨
    (∃ m, recog = RecogOutcome.raises m ∧
        (transcribe_audio p conv recog fs).1 = some ("Error: " ++ m)) := by
  cases recog with
  | ok t =>
      left
      refine ⟨t, rfl, ?_⟩
      simp only [transcribe_audio]
      split <;> rfl
  | unknownValue => right; left; exact ⟨rfl, rfl⟩
  | raises m => right; right; exact ⟨m, rfl, rfl⟩

/-- The transcription Error string is never empty. -/
theorem errorString_beq_empty (m : String) :
    (("Error: " ++ m) == "") = false := by
  rw [beq_eq_false_iff_ne]
  exact append_ne_empty_of_left "Error: " m (by decide)

/-- The evaluator error string is never empty. -/
theorem feedbackError_beq_empty (m : String) :
    (("Error getting feedback: " ++ m) == "") = false := by
  rw [beq_eq_false_iff_ne]
  exact append_ne_empty_of_left "Error getting feedback: " m (by decide)

/-- The returned value of transcribe_audio is determined by the
recognition outcome alone. -/
theorem transcribe_audio_fst (p : String) (conv : ConvOutcome)
    (recog : RecogOutcome) (fs : List String) :
    (transcribe_audio p conv recog fs).1 =
      match recog with
      | RecogOutcome.ok t => some t
      | RecogOutcome.unknownValue => none
      | RecogOutcome.raises m => some ("Error: " ++ m) := by
  cases recog with
  | ok t =>
      simp only [transcribe_audio]
      split <;> rfl
  | unknownValue => rfl
  | raises m => rfl

/-- Claim C4 counterexample: in voice mode, an Error transcription outcome
is a truthy string and is forwarded to the feedback logic exactly like
recognized text: pendingFeedback is set and the session moves to
REVIEWING. -/
theorem C4_counterexample :
    phase (step (Cmd.audioReady ConvOutcome.ok (RecogOutcome.raises "boom")
      (EvalOutcome.raises "down") "a.wav") voiceAskingEx) = Phase.REVIEWING ∧
    (step (Cmd.audioReady ConvOutcome.ok (RecogOutcome.raises "boom")
      (EvalOutcome.raises "down") "a.wav") voiceAskingEx).feedback
      = some "Error getting feedback: down" := by
  decide

/-- Claim C4 (amended): the voice handler separates transcription outcomes
only by Python truthiness: None (unrecognized) and empty recognized text
leave the session unchanged in ASKING, while any non-empty string — be it
recognized text or the formatted Error string — is forwarded as the answer
to the evaluator, setting pendingFeedback. -/
theorem C4_truthiness_forwarding (s : SessionState) (q : Question)
    (conv : ConvOutcome) (ev : EvalOutcome) (tmp msg t : String)
    (hA : phase s = Phase.ASKING) (hV : pyIn "Voice" s.mode = true)
    (hq : s.questions[s.current_q]? = some q) :
    step (Cmd.audioReady conv RecogOutcome.unknownValue ev tmp) s = s ∧
    step (Cmd.audioReady conv (RecogOutcome.raises msg) ev tmp) s
      = { s with feedback := some (analyze_with_gemini ev ("Error: " ++ msg) q.text) } ∧
    (t ≠ "" → step (Cmd.audioReady conv (RecogOutcome.ok t) ev tmp) s
      = { s with feedback := some (analyze_with_gemini ev t q.text) }) ∧
    step (Cmd.audioReady conv (RecogOutcome.ok "") ev tmp) s = s := by
  refine ⟨?_, ?_, ?_, ?_⟩
  · simp [step, hA, hV, audioReadyHandler, transcribe_audio_fst]
  · simp [step, hA, hV, audioReadyHandler, transcribe_audio_fst, hq,
      errorString_beq_empty]
  · intro ht
    have hb : (t == "") = false := by rwa [beq_eq_false_iff_ne]
    simp [step, hA, hV, audioReadyHandler, transcribe_audio_fst, hq, hb]
  · simp [step, hA, hV, audioReadyHandler, transcribe_audio_fst, hq]

/-- Witness for C4 (amended) at a concrete input. -/
theorem C4_truthiness_witness :
    phase voiceAskingEx = Phase.ASKING ∧
    pyIn "Voice" voiceAskingEx.mode = true ∧
    voiceAskingEx.questions[voiceAskingEx.current_q]?
      = some { id := "q1", text := "Tell me about yourself." } ∧
    step (Cmd.audioReady ConvOutcome.ok RecogOutcome.unknownValue
      (EvalOutcome.returns "fb") "a.wav") voiceAskingEx = voiceAskingEx :=
  ⟨by decide, by decide, by decide,
    (C4_truthiness_forwarding voiceAskingEx
      { id := "q1", text := "Tell me about yourself." }
      ConvOutcome.ok (EvalOutcome.returns "fb") "a.wav" "m" "t"
      (by decide) (by decide) (by decide)).1⟩

/-- Claim C6: both validation failures are rejected locally with the state
unchanged: a start with an empty candidate name is a no-op (the phase
stays SETUP when it was SETUP), and a submit whose answer strips to empty
is a no-op (the phase never leaves ASKING).  The name hypothesis reflects
the widget sync of line 130, which has already stored the submitted empty
name when the button handler runs. -/
theorem C6_validation_rejection (s : SessionState) (g : Bool)
    (gen : GenOutcome) (field role difficulty mode : String)
    (ev : EvalOutcome) (answer : String)
    (hname : s.name = "") (hanswer : pyStrip answer = "") :
    step (Cmd.start g gen "" field role difficulty mode) s = s ∧
    phase (step (Cmd.start g gen "" field role difficulty mode) s) = phase s ∧
    step (Cmd.submitText ev answer) s = s ∧
    phase (step (Cmd.submitText ev answer) s) = phase s := by
  have h1 : step (Cmd.start g gen "" field role difficulty mode) s = s := by
    by_cases hsd : s.setup_done = true
    · simp [step, hsd]
    · have hsd2 : s.setup_done = false := by simpa using hsd
      cases s with
      | mk questions current_q feedback setup_done mode2 name =>
          simp at hname hsd2
          subst hname
          subst hsd2
          simp [step, startInterview]
  have h2 : step (Cmd.submitText ev answer) s = s := by
    by_cases hg : phase s = Phase.ASKING ∧ pyIn "Voice" s.mode = false
    · simp [step, hg, submitTextAnswer, hanswer]
    · simp [step, hg]
  exact ⟨h1, by rw [h1], h2, by rw [h2]⟩

/-- Witness for C6 at concrete inputs. -/
theorem C6_validation_witness :
    initState.name = "" ∧ pyStrip "   " = "" ∧
    step (Cmd.submitText (EvalOutcome.raises "e") "   ") initState
      = initState ∧
    phase (step (Cmd.start true (GenOutcome.raises "m") "" "Student"
      "Software Engineer" "Beginner" "Text ✎") initState) = phase initState :=
  ⟨rfl, by decide,
    (C6_validation_rejection initState true (GenOutcome.raises "m") "Student"
      "Software Engineer" "Beginner" "Text ✎" (EvalOutcome.raises "e") "   "
      rfl (by decide)).2.2.1,
    (C6_validation_rejection initState true (GenOutcome.raises "m") "Student"
      "Software Engineer" "Beginner" "Text ✎" (EvalOutcome.raises "e") "   "
      rfl (by decide)).2.1⟩

/-- Claim C7: the evaluator never raises — a collaborator failure becomes
the formatted error string — and a submit with a non-empty answer still
records that string as pendingFeedback and moves the session to REVIEWING;
nothing in the handler retries. -/
theorem C7_eval_failure_is_feedback (s : SessionState) (q : Question)
    (e answer : String)
    (hA : phase s = Phase.ASKING) (hM : pyIn "Voice" s.mode = false)
    (hq : s.questions[s.current_q]? = some q)
    (hans : pyStrip answer ≠ "") :
    analyze_with_gemini (EvalOutcome.raises e) answer q.text
      = "Error getting feedback: " ++ e ∧
    step (Cmd.submitText (EvalOutcome.raises e) answer) s
      = { s with feedback := some ("Error getting feedback: " ++ e) } ∧
    phase (step (Cmd.submitText (EvalOutcome.raises e) answer) s)
      = Phase.REVIEWING := by
  have hb : (pyStrip answer == "") = false := by
    rwa [beq_eq_false_iff_ne]
  have hstep : step (Cmd.submitText (EvalOutcome.raises e) answer) s
      = { s with feedback := some ("Error getting feedback: " ++ e) } := by
    simp [step, hA, hM, submitTextAnswer, hb, hq, analyze_with_gemini]
  refine ⟨rfl, hstep, ?_⟩
  rcases (phase_asking_iff s).mp hA with ⟨hsd, hlt, _⟩
  rw [hstep, phase_reviewing_iff]
  refine ⟨by simpa using hsd, by simpa using hlt, ?_⟩
  simp [truthyOpt, feedbackError_beq_empty e]

/-- Witness for C7 at concrete inputs. -/
theorem C7_eval_failure_witness :
    phase textAskingEx = Phase.ASKING ∧
    pyIn "Voice" textAskingEx.mode = false ∧
    pyStrip "I wrote code at Acme." ≠ "" ∧
    phase (step (Cmd.submitText (EvalOutcome.raises "quota")
      "I wrote code at Acme.") textAskingEx) = Phase.REVIEWING :=
  ⟨by decide, by decide, by decide,
    (C7_eval_failure_is_feedback textAskingEx
      { id := "q1", text := "Tell me about yourself." } "quota"
      "I wrote code at Acme." (by decide) (by decide) (by decide)
      (by decide)).2.2⟩

/-- Setting the feedback in a state whose index is in range keeps the
phase within the question loop, reviewing iff the new feedback is truthy. -/
theorem phase_feedback_update (s : SessionState) (f : Option String)
    (hsd : s.setup_done = true) (hlt : s.current_q < s.questions.length) :
    phase { s with feedback := f }
      = if truthyOpt f then Phase.REVIEWING else Phase.ASKING := by
  simp [phase, hsd, hlt]

/-- Recording feedback from an ASKING state preserves the scoped
invariant. -/
theorem scopedInvariant_feedback_update (s : SessionState) (f : Option String)
    (hA : phase s = Phase.ASKING) :
    scopedInvariant { s with feedback := f } := by
  rcases (phase_asking_iff s).mp hA with ⟨hsd, hlt, _⟩
  have hp := phase_feedback_update s f hsd hlt
  unfold scopedInvariant
  refine ⟨?_, ?_, ?_, ?_⟩
  · intro _
    simpa using hlt
  · rw [hp]
    cases hf : truthyOpt f <;> simp
  · intro _
    rw [hp]
    constructor
    · intro hd
      split at hd <;> simp_all
    · intro he
      simp at he
      omega
  · intro hf
    simp [hsd] at hf

/-- submitAnswer preserves the scoped invariant. -/
theorem scopedInvariant_submitText (ev : EvalOutcome) (answer : String)
    (s : SessionState) (h : scopedInvariant s) :
    scopedInvariant (step (Cmd.submitText ev answer) s) := by
  by_cases hg : phase s = Phase.ASKING ∧ pyIn "Voice" s.mode = false
  · rw [show step (Cmd.submitText ev answer) s = submitTextAnswer ev answer s
        from by simp [step, hg]]
    unfold submitTextAnswer
    split
    · exact h
    · split
      · exact scopedInvariant_feedback_update s _ hg.1
      · exact h
  · simpa [step, hg] using h

/-- audioReady preserves the scoped invariant. -/
theorem scopedInvariant_audioReady (conv : ConvOutcome) (recog : RecogOutcome)
    (ev : EvalOutcome) (tmp : String) (s : SessionState)
    (h : scopedInvariant s) :
    scopedInvariant (step (Cmd.audioReady conv recog ev tmp) s) := by
  by_cases hg : phase s = Phase.ASKING ∧ pyIn "Voice" s.mode = true
  · cases recog with
    | ok t =>
        cases hq : s.questions[s.current_q]? with
        | none =>
            simpa [step, hg, audioReadyHandler, transcribe_audio_fst, hq] using h
        | some q =>
            by_cases ht : (t == "") = true
            · simpa [step, hg, audioReadyHandler, transcribe_audio_fst, hq, ht]
                using h
            · have ht2 : (t == "") = false := by simpa using ht
              rw [show step (Cmd.audioReady conv (RecogOutcome.ok t) ev tmp) s
                  = { s with feedback := some (analyze_with_gemini ev t q.text) }
                  from by simp [step, hg, audioReadyHandler, transcribe_audio_fst,
                    hq, ht2]]
              exact scopedInvariant_feedback_update s _ hg.1
    | unknownValue =>
        simpa [step, hg, audioReadyHandler, transcribe_audio_fst] using h
    | raises m =>
        cases hq : s.questions[s.current_q]? with
        | none =>
            simpa [step, hg, audioReadyHandler, transcribe_audio_fst, hq] using h
        | some q =>
            rw [show step (Cmd.audioReady conv (RecogOutcome.raises m) ev tmp) s
                = { s with feedback := some (analyze_with_gemini ev ("Error: " ++ m) q.text) }
                from by simp [step, hg, audioReadyHandler, transcribe_audio_fst,
                  hq, errorString_beq_empty]]
            exact scopedInvariant_feedback_update s _ hg.1
  · simpa [step, hg] using h

/-- A successful start lands in a state satisfying the scoped invariant. -/
theorem scopedInvariant_setup_success (s : SessionState) (qs : List Question)
    (n m : String) (hfb : truthyOpt s.feedback = false) (hq0 : s.current_q = 0) :
    scopedInvariant { s with name := n, questions := qs, mode := m, setup_done := true } := by
  unfold scopedInvariant
  by_cases hl : 0 < qs.length
  · have hp : phase { s with name := n, questions := qs, mode := m, setup_done := true } = Phase.ASKING := by
      rw [phase_asking_iff]
      simp [hq0, hl, hfb]
    refine ⟨?_, ?_, ?_, ?_⟩
    · intro _
      simpa [hq0] using hl
    · rw [hp]
      simp [hfb]
    · intro _
      rw [hp]
      constructor
      · intro hd
        simp at hd
      · intro he
        simp [hq0] at he
        omega
    · intro hf
      simp at hf
  · have hp : phase { s with name := n, questions := qs, mode := m, setup_done := true } = Phase.DONE := by
      rw [phase_done_iff]
      refine ⟨rfl, ?_⟩
      show qs.length ≤ s.current_q
      omega
    refine ⟨?_, ?_, ?_, ?_⟩
    · intro hor
      rw [hp] at hor
      rcases hor with hor | hor <;> simp at hor
    · rw [hp]
      simp [hfb]
    · intro _
      rw [hp]
      constructor
      · intro _
        show s.current_q = qs.length
        omega
      · intro _
        rfl
    · intro hf
      simp at hf

/-- start preserves the scoped invariant. -/
theorem scopedInvariant_start (g : Bool) (gen : GenOutcome)
    (name field role difficulty mode : String) (s : SessionState)
    (h : scopedInvariant s) :
    scopedInvariant (step (Cmd.start g gen name field role difficulty mode) s) := by
  by_cases hsd : s.setup_done = true
  · simpa [step, hsd] using h
  · have hsd2 : s.setup_done = false := by simpa using hsd
    have hq0 : s.current_q = 0 := h.2.2.2 hsd2
    have hfb : truthyOpt s.feedback = false := by
      cases hf : truthyOpt s.feedback
      · rfl
      · exfalso
        have hrev := h.2.1.mp hf
        rw [phase_reviewing_iff, hsd2] at hrev
        simp at hrev
    rw [show step (Cmd.start g gen name field role difficulty mode) s
        = startInterview g gen name field role difficulty mode s
        from by simp [step, hsd2]]
    unfold startInterview
    by_cases hn : (name == "") = true
    · simp only [hn, if_true]
      show scopedInvariant { s with name := name }
      exact h
    · have hn2 : (name == "") = false := by simpa using hn
      simp only [hn2, Bool.false_eq_true, if_false]
      cases g with
      | false =>
          simp only [Bool.false_eq_true, if_false]
          show scopedInvariant { s with name := name }
          exact h
      | true =>
          simp only [if_true]
          exact scopedInvariant_setup_success { s with name := name } _ _ _
            hfb hq0

/-- advance preserves the scoped invariant. -/
theorem scopedInvariant_advance (s : SessionState) (h : scopedInvariant s) :
    scopedInvariant (step Cmd.advance s) := by
  by_cases hg : phase s = Phase.REVIEWING
  · rcases (phase_reviewing_iff s).mp hg with ⟨hsd, hlt, _⟩
    rw [show step Cmd.advance s = nextQuestion s from by simp [step, hg]]
    unfold nextQuestion scopedInvariant
    by_cases hl : s.current_q + 1 < s.questions.length
    · have hp : phase { s with feedback := none, current_q := s.current_q + 1 }
          = Phase.ASKING := by
        rw [phase_asking_iff]
        simp [hsd, hl, truthyOpt]
      refine ⟨?_, ?_, ?_, ?_⟩
      · intro _
        simpa using hl
      · rw [hp]
        simp [truthyOpt]
      · intro _
        rw [hp]
        constructor
        · intro hd
          simp at hd
        · intro he
          simp at he
          omega
      · intro hf
        simp [hsd] at hf
    · have hp : phase { s with feedback := none, current_q := s.current_q + 1 }
          = Phase.DONE := by
        rw [phase_done_iff]
        simp [hsd]
        omega
      refine ⟨?_, ?_, ?_, ?_⟩
      · intro hor
        rw [hp] at hor
        rcases hor with hor | hor <;> simp at hor
      · rw [hp]
        simp [truthyOpt]
      · intro _
        rw [hp]
        simp
        omega
      · intro hf
        simp [hsd] at hf
  · simpa [step, hg] using h

/-- reset preserves the scoped invariant. -/
theorem scopedInvariant_reset (s : SessionState) (h : scopedInvariant s) :
    scopedInvariant (step Cmd.reset s) := by
  by_cases hg : phase s = Phase.DONE
  · rw [show step Cmd.reset s = initState from by simp [step, hg, startOver]]
    decide
  · simpa [step, hg] using h

/-- Claim C5 counterexample: the completed-interview state satisfies the
invariant exactly as the claim states it, but reset — one of the five
listed commands — yields the initial state, in which currentIndex (0)
equals the question count (0) while the phase is SETUP, not DONE: the
unscoped DONE clause of the invariant is not preserved by every command. -/
theorem C5_counterexample :
    specInvariant doneStateEx ∧ ¬ specInvariant (step Cmd.reset doneStateEx) := by
  decide

/-- Claim C5 (amended): every command preserves the invariant once the
DONE clause is scoped to post-setup states (in SETUP, produced only at
initialization and reset, the question list is empty and currentIndex is
0, so the unscoped clause cannot hold); and advance from REVIEWING clears
pendingFeedback, increments currentIndex by exactly one, and yields DONE
exactly when currentIndex reaches the question count and ASKING exactly
when it is still in range. -/
theorem C5_invariant_preservation :
    (∀ (c : Cmd) (s : SessionState),
      scopedInvariant s → scopedInvariant (step c s)) ∧
    (∀ s : SessionState, phase s = Phase.REVIEWING →
      (step Cmd.advance s).feedback = none ∧
      (step Cmd.advance s).current_q = s.current_q + 1 ∧
      (phase (step Cmd.advance s) = Phase.DONE
        ↔ s.current_q + 1 = s.questions.length) ∧
      (phase (step Cmd.advance s) = Phase.ASKING
        ↔ s.current_q + 1 < s.questions.length)) := by
  constructor
  · intro c s h
    cases c with
    | start g gen name field role difficulty mode =>
        exact scopedInvariant_start g gen name field role difficulty mode s h
    | submitText ev answer => exact scopedInvariant_submitText ev answer s h
    | audioReady conv recog ev tmp =>
        exact scopedInvariant_audioReady conv recog ev tmp s h
    | advance => exact scopedInvariant_advance s h
    | reset => exact scopedInvariant_reset s h
  · intro s hg
    rcases (phase_reviewing_iff s).mp hg with ⟨hsd, hlt, _⟩
    rw [show step Cmd.advance s = nextQuestion s from by simp [step, hg]]
    refine ⟨rfl, rfl, ?_, ?_⟩
    · rw [phase_done_iff]
      unfold nextQuestion
      simp [hsd]
      omega
    · rw [phase_asking_iff]
      unfold nextQuestion
      simp [hsd, truthyOpt]

/-- Witness for C5 (amended) at a concrete input. -/
theorem C5_invariant_witness :
    scopedInvariant reviewingEx ∧
    phase reviewingEx = Phase.REVIEWING ∧
    scopedInvariant (step Cmd.advance reviewingEx) ∧
    (step Cmd.advance reviewingEx).current_q = reviewingEx.current_q + 1 :=
  ⟨by decide, by decide,
    C5_invariant_preservation.1 Cmd.advance reviewingEx (by decide),
    (C5_invariant_preservation.2 reviewingEx (by decide)).2.1⟩
